import Mathlib

/-!
Shallow embedding of `src/stores/itemTransactionStore.ts` (a Pinia store for a
point-of-sale front-end).  The store holds in-memory UI state and mediates
request/response round trips with a remote HTTP API.  Network calls are modelled
as an `Outcome` argument: either the request threw, or it produced a response
envelope.  Each async action of the store becomes a pure function from the
current state (plus its arguments and the network outcome) to an `OpResult`:
the new state, whether a network request was issued, and the JavaScript-level
result of the call (a returned value, `undefined`, or a raised error).
-/

namespace ItemTransactionStore

/-- A JSON-like value, used for payloads the store treats as opaque and for the
`searchItems` response, whose `items` field may be an array or a keyed map. -/
inductive Json : Type
  | null : Json
  | num (n : Int) : Json
  | str (s : String) : Json
  | arr (elems : List Json) : Json
  | obj (fields : List (String × Json)) : Json

/-- JavaScript truthiness on our `Json` values: `null` is falsy, numbers are
falsy iff zero, strings iff empty; arrays and objects are always truthy. -/
def jsTruthy : Json → Bool
  | .null => false
  | .num n => !(n == 0)
  | .str s => !(s == "")
  | .arr _ => true
  | .obj _ => true

/-- Property access `j.k` (also modelling the optional chaining `j?.k`):
defined on objects, `none` (undefined) otherwise. -/
def Json.getField : Json → String → Option Json
  | .obj fields, k => (fields.find? (fun f => f.1 == k)).map (fun f => f.2)
  | _, _ => none

/-- JavaScript `Object.values` on an object's field list. -/
def objValues (fields : List (String × Json)) : List Json :=
  fields.map (fun f => f.2)

/-- The `x || 0` on a possibly-missing numeric field: `undefined` and `0` are
falsy and give `0`; any other number is returned unchanged. -/
def jsOr0 : Option Int → Int
  | none => 0
  | some n => if n == 0 then 0 else n

/-- The fields of `Product` (from `src/types/item`) that the store reads:
`id`, `solo_unit_price`, `bulk_unit_price` (the prices may be absent,
hence the `|| 0` seeding in the source). -/
structure Product where
  id : Int
  solo_unit_price : Option Int
  bulk_unit_price : Option Int
  deriving DecidableEq, BEq

/-- A server-returned warehouse record; treated as an opaque payload. -/
structure Warehouse where
  payload : Json

/-- The `BranchWithWarehouses` from `src/types/warehouse`: the store only reads
its `warehouses` field. -/
structure BranchWithWarehouses where
  warehouses : List Warehouse

/-- A customer record; the store reads its `type` tag ("supplier"/"customer")
in the computed partitions and otherwise treats it as opaque. -/
structure Customer where
  id : Int
  type : String
  payload : Json

/-- A `List` read-model row (named `ListEntry` here since `List` is taken);
treated as an opaque payload. -/
structure ListEntry where
  payload : Json

/-- Server pagination metadata, overwritten wholesale on each list fetch. -/
structure Pagination where
  payload : Json

/-- A created-transaction read model; treated as an opaque payload. -/
structure PurchaseResponse where
  payload : Json

/-- The transaction request payload; opaque to the store. -/
structure Transaction where
  payload : Json

/-- The refund request payload; opaque to the store. -/
structure RefundTransaction where
  payload : Json

/-- Payment data for `paySupplier` / `receiveFromCustomer`. -/
structure PaymentData where
  customer_id : Int
  amount : Int
  note : String

/-- The `'cash' | 'borrow'` payment-type union. -/
inductive PaymentType : Type
  | cash : PaymentType
  | borrow : PaymentType
  deriving DecidableEq, BEq

/-- The `'purchase' | 'sell'` union used by list fetches and item search. -/
inductive TransactionKind : Type
  | purchase : TransactionKind
  | sell : TransactionKind
  deriving DecidableEq, BEq

/-- The `'purchase' | 'sale'` union used by `createTransaction`. -/
inductive CreateKind : Type
  | purchase : CreateKind
  | sale : CreateKind
  deriving DecidableEq, BEq

/-- The `'supplier' | 'customer'` filter for `fetchCustomers`. -/
inductive CustomerFilter : Type
  | supplier : CustomerFilter
  | customer : CustomerFilter
  deriving DecidableEq, BEq

/-- The `'USD' | 'IQD'` currency union for `fetchSingleTransaction`. -/
inductive Currency : Type
  | usd : Currency
  | iqd : Currency
  deriving DecidableEq, BEq

/-- One entry of `selectedItems`: a line item of the draft transaction. -/
structure SelectedItem where
  item_id : Int
  item : Product
  quantity : Int
  unit_price : Int
  solo_unit_price : Int
  bulk_unit_price : Int
  deriving DecidableEq, BEq

/-- One entry of `transactionForm.details`. -/
structure FormDetail where
  item_id : Int
  quantity : Int
  unit_price : Int
  solo_unit_price : Int
  bulk_unit_price : Int
  deriving DecidableEq, BEq

/-- The `transactionForm` draft. -/
structure TransactionForm where
  customer_id : Option Int
  warehouse_id : Option Int
  payment_type : PaymentType
  note : String
  details : List FormDetail

/-- The response envelope `{ status, data, message?, pagination? }`. -/
structure ApiResponse (α : Type) where
  status : String
  data : α
  message : Option String
  pagination : Option Pagination

/-- The outcome of an awaited network call: the request threw, or it resolved
to a response envelope. -/
inductive Outcome (α : Type) : Type
  | thrown (e : String) : Outcome α
  | ok (resp : ApiResponse α) : Outcome α

/-- The JavaScript-level result of calling an async action: it resolved to a
value (`value (some v)`), resolved to `undefined` (`value none`), or raised. -/
inductive JsResult (ρ : Type) : Type
  | value (v : Option ρ) : JsResult ρ
  | raised (e : String) : JsResult ρ

/-- The whole mutable state of the store. -/
structure StoreState where
  loading : Bool
  list : List ListEntry
  pagination : Option Pagination
  transactions : List PurchaseResponse
  warehouses : List Warehouse
  customers : List Customer
  selectedItems : List SelectedItem
  transactionForm : TransactionForm

/-- What one async action produces: the state it leaves behind, whether it
issued a network request, and its JavaScript-level result. -/
structure OpResult (ρ : Type) where
  state : StoreState
  requestIssued : Bool
  result : JsResult ρ

/-! ## Pure state mutations (selected items and form) -/

/-- The `existingItem.quantity += 1` on the first entry whose `item_id` matches
(the source locates it with `findIndex`). -/
def incFirstQuantity : List SelectedItem → Int → List SelectedItem
  | [], _ => []
  | si :: rest, itemId =>
    if si.item_id == itemId then { si with quantity := si.quantity + 1 } :: rest
    else si :: incFirstQuantity rest itemId

/-- The entry pushed by `addSelectedItem` for a not-yet-selected product. -/
def mkSelectedItem (item : Product) : SelectedItem :=
  { item_id := item.id
    item := item
    quantity := 1
    unit_price := jsOr0 item.solo_unit_price
    solo_unit_price := jsOr0 item.solo_unit_price
    bulk_unit_price := jsOr0 item.bulk_unit_price }

/-- Action `addSelectedItem(item)`: bump the quantity of the existing entry with the
same item id, or push a fresh entry with quantity 1 and seeded prices. -/
def addSelectedItem (s : StoreState) (item : Product) : StoreState :=
  if s.selectedItems.any (fun si => si.item_id == item.id) then
    { s with selectedItems := incFirstQuantity s.selectedItems item.id }
  else
    { s with selectedItems := s.selectedItems ++ [mkSelectedItem item] }

/-- The `splice(index, 1)` at the first entry whose `item_id` matches. -/
def removeFirst : List SelectedItem → Int → List SelectedItem
  | [], _ => []
  | si :: rest, itemId =>
    if si.item_id == itemId then rest else si :: removeFirst rest itemId

/-- Action `removeSelectedItem(itemId)`: drop the matching entry if present. -/
def removeSelectedItem (s : StoreState) (itemId : Int) : StoreState :=
  if s.selectedItems.any (fun si => si.item_id == itemId) then
    { s with selectedItems := removeFirst s.selectedItems itemId }
  else s

/-- The `item.quantity = quantity` on the first entry whose `item_id` matches. -/
def setFirstQuantity : List SelectedItem → Int → Int → List SelectedItem
  | [], _, _ => []
  | si :: rest, itemId, q =>
    if si.item_id == itemId then { si with quantity := q } :: rest
    else si :: setFirstQuantity rest itemId q

/-- The `item.unit_price = price` on the first entry whose `item_id` matches. -/
def setFirstPrice : List SelectedItem → Int → Int → List SelectedItem
  | [], _, _ => []
  | si :: rest, itemId, p =>
    if si.item_id == itemId then { si with unit_price := p } :: rest
    else si :: setFirstPrice rest itemId p

/-- Action `updateSelectedItemQuantity(itemId, quantity)`: assign only when the entry
exists and the quantity is positive. -/
def updateSelectedItemQuantity (s : StoreState) (itemId q : Int) : StoreState :=
  match s.selectedItems.find? (fun si => si.item_id == itemId) with
  | some _ =>
    if q > 0 then { s with selectedItems := setFirstQuantity s.selectedItems itemId q }
    else s
  | none => s

/-- Action `updateSelectedItemPrice(itemId, price)`: assign only when the entry exists
and the price is non-negative. -/
def updateSelectedItemPrice (s : StoreState) (itemId p : Int) : StoreState :=
  match s.selectedItems.find? (fun si => si.item_id == itemId) with
  | some _ =>
    if p >= 0 then { s with selectedItems := setFirstPrice s.selectedItems itemId p }
    else s
  | none => s

/-- Action `resetForm()`: restore the form literal and empty the selection. -/
def resetForm (s : StoreState) : StoreState :=
  { s with
      transactionForm :=
        { customer_id := none
          warehouse_id := none
          payment_type := .cash
          note := ""
          details := [] }
      selectedItems := [] }

/-! ## Async actions

Each action sets `loading` to `true` first (its `try` block opens with
`loading.value = true`), and its `finally` clause sets `loading` back to
`false` on every path.  `requestIssued` records whether control reached the
`await api.…` call. -/

/-- JavaScript falsiness of an optional numeric id (`!branchId` is true for
`undefined` and for `0`). -/
def isFalsyId : Option Int → Bool
  | none => true
  | some n => n == 0

/-- The `loading.value = true` opening `fetchBranchWarehouses`'s `try`. -/
def fetchBranchWarehousesStart (s : StoreState) : StoreState :=
  { s with loading := true }

/-- The rest of `fetchBranchWarehouses` after `loading` was set: a falsy
branch id short-circuits to an empty list with no request; otherwise the
response (or a thrown/failed request, which is swallowed) decides
`warehouses`.  The `finally` clears `loading` on every path. -/
def fetchBranchWarehousesBody (s : StoreState) (branchId : Option Int)
    (net : Outcome BranchWithWarehouses) : OpResult Unit :=
  if isFalsyId branchId then
    { state := { s with warehouses := [], loading := false }
      requestIssued := false
      result := .value none }
  else
    match net with
    | .thrown _ =>
      { state := { s with warehouses := [], loading := false }
        requestIssued := true
        result := .value none }
    | .ok resp =>
      if resp.status == "success" then
        { state := { s with warehouses := resp.data.warehouses, loading := false }
          requestIssued := true
          result := .value none }
      else
        { state := { s with warehouses := [], loading := false }
          requestIssued := true
          result := .value none }

/-- Action `fetchBranchWarehouses(branchId?)`. -/
def fetchBranchWarehouses (s : StoreState) (branchId : Option Int)
    (net : Outcome BranchWithWarehouses) : OpResult Unit :=
  fetchBranchWarehousesBody (fetchBranchWarehousesStart s) branchId net

/-- Action `fetchCustomers(type?)`: on success replace `customers`; a non-success
envelope or a thrown request leaves them as they were (the catch only logs). -/
def fetchCustomers (s : StoreState) (ty : Option CustomerFilter)
    (net : Outcome (List Customer)) : OpResult Unit :=
  let s1 := { s with loading := true }
  match net with
  | .thrown _ =>
    { state := { s1 with loading := false }
      requestIssued := true
      result := .value none }
  | .ok resp =>
    if resp.status == "success" then
      { state := { s1 with customers := resp.data, loading := false }
        requestIssued := true
        result := .value none }
    else
      { state := { s1 with loading := false }
        requestIssued := true
        result := .value none }

/-- Action `fetchTransactionList(transactionType, page)`: on success replace `list`
and, when the envelope carries pagination, `pagination`; a non-success
envelope or a thrown request changes neither (the catch only logs). -/
def fetchTransactionList (s : StoreState) (ty : TransactionKind) (page : Int)
    (net : Outcome (List ListEntry)) : OpResult Unit :=
  let s1 := { s with loading := true }
  match net with
  | .thrown _ =>
    { state := { s1 with loading := false }
      requestIssued := true
      result := .value none }
  | .ok resp =>
    if resp.status == "success" then
      let s2 := { s1 with list := resp.data }
      let s3 :=
        match resp.pagination with
        | some p => { s2 with pagination := some p }
        | none => s2
      { state := { s3 with loading := false }
        requestIssued := true
        result := .value none }
    else
      { state := { s1 with loading := false }
        requestIssued := true
        result := .value none }

/-- Action `fetchSingleTransaction(transactionId, currency)`: returns the record on
success (not stored), `undefined` on a non-success envelope, and re-throws a
failed request. -/
def fetchSingleTransaction (s : StoreState) (transactionId : Int) (cur : Currency)
    (net : Outcome ListEntry) : OpResult ListEntry :=
  let s1 := { s with loading := true }
  match net with
  | .thrown e =>
    { state := { s1 with loading := false }
      requestIssued := true
      result := .raised e }
  | .ok resp =>
    if resp.status == "success" then
      { state := { s1 with loading := false }
        requestIssued := true
        result := .value (some resp.data) }
    else
      { state := { s1 with loading := false }
        requestIssued := true
        result := .value none }

/-- Action `createTransaction(transaction, transactionType)`: on success, `unshift`
the created record onto `transactions`, reset form and selection, and return
the envelope; on a non-success envelope return `undefined` changing nothing;
re-throw a failed request. -/
def createTransaction (s : StoreState) (txn : Transaction) (kind : CreateKind)
    (net : Outcome PurchaseResponse) : OpResult (ApiResponse PurchaseResponse) :=
  let s1 := { s with loading := true }
  match net with
  | .thrown e =>
    { state := { s1 with loading := false }
      requestIssued := true
      result := .raised e }
  | .ok resp =>
    if resp.status == "success" then
      let s2 := { s1 with transactions := resp.data :: s1.transactions }
      let s3 := resetForm s2
      { state := { s3 with loading := false }
        requestIssued := true
        result := .value (some resp) }
    else
      { state := { s1 with loading := false }
        requestIssued := true
        result := .value none }

/-- Shared shape of `paySupplier`, `receiveFromCustomer`, `refundTransaction`
and `feedingTransaction`: return the envelope on success, `undefined` on a
non-success envelope, and re-throw a failed request; no state beyond
`loading` is touched. -/
def postPassthrough (s : StoreState) (net : Outcome Json) : OpResult (ApiResponse Json) :=
  let s1 := { s with loading := true }
  match net with
  | .thrown e =>
    { state := { s1 with loading := false }
      requestIssued := true
      result := .raised e }
  | .ok resp =>
    if resp.status == "success" then
      { state := { s1 with loading := false }
        requestIssued := true
        result := .value (some resp) }
    else
      { state := { s1 with loading := false }
        requestIssued := true
        result := .value none }

/-- Action `paySupplier(paymentData)`. -/
def paySupplier (s : StoreState) (pd : PaymentData) (net : Outcome Json) :
    OpResult (ApiResponse Json) :=
  postPassthrough s net

/-- Action `receiveFromCustomer(paymentData)`. -/
def receiveFromCustomer (s : StoreState) (pd : PaymentData) (net : Outcome Json) :
    OpResult (ApiResponse Json) :=
  postPassthrough s net

/-- Action `refundTransaction(refundData)`. -/
def refundTransaction (s : StoreState) (rd : RefundTransaction) (net : Outcome Json) :
    OpResult (ApiResponse Json) :=
  postPassthrough s net

/-- Action `feedingTransaction(transactionId)`. -/
def feedingTransaction (s : StoreState) (transactionId : Int) (net : Outcome Json) :
    OpResult (ApiResponse Json) :=
  postPassthrough s net

/-- Action `searchItems(searchQuery, warehouseId?, transactionType?)`: on success, a
sell-with-warehouse search whose `data.items` is truthy returns the items
array as-is, the values of a keyed map, or `[]` for any other items shape;
otherwise the data itself (or `[]` when the data is falsy) is returned; a
non-success envelope yields `[]`; a failed request is re-thrown. -/
def searchItems (s : StoreState) (query : String) (warehouseId : Option Int)
    (transactionType : Option TransactionKind) (net : Outcome Json) : OpResult Json :=
  let s1 := { s with loading := true }
  let sellWithWarehouse : Bool :=
    (match transactionType with
     | some TransactionKind.sell => true
     | _ => false) && !(isFalsyId warehouseId)
  match net with
  | .thrown e =>
    { state := { s1 with loading := false }
      requestIssued := true
      result := .raised e }
  | .ok resp =>
    let returned : Json :=
      if resp.status == "success" then
        if sellWithWarehouse
            && (match resp.data.getField "items" with
                | some items => jsTruthy items
                | none => false) then
          match resp.data.getField "items" with
          | some (.arr l) => .arr l
          | some (.obj fields) => .arr (objValues fields)
          | _ => .arr []
        else
          if jsTruthy resp.data then resp.data else .arr []
      else .arr []
    { state := { s1 with loading := false }
      requestIssued := true
      result := .value (some returned) }

/-! ## Computed values -/

/-- Computed `totalAmount`: `reduce` over the selected items of quantity × unit price,
starting from 0. -/
def totalAmount (s : StoreState) : Int :=
  s.selectedItems.foldl (fun total item => total + item.quantity * item.unit_price) 0

/-- Computed `supplierCustomers`: customers whose type tag is `"supplier"`. -/
def supplierCustomers (s : StoreState) : List Customer :=
  s.customers.filter (fun c => c.type == "supplier")

/-- Computed `regularCustomers`: customers whose type tag is `"customer"`. -/
def regularCustomers (s : StoreState) : List Customer :=
  s.customers.filter (fun c => c.type == "customer")

/-! ## The store as a transition system

`Action` enumerates every exposed operation of the store (with the network
outcome an async action observes bundled in), and `step` runs one operation,
keeping only the state it leaves behind. -/

/-- One invocation of any exposed operation of the store. -/
inductive Action : Type
  | fetchBranchWarehousesA (branchId : Option Int) (net : Outcome BranchWithWarehouses)
  | fetchCustomersA (ty : Option CustomerFilter) (net : Outcome (List Customer))
  | fetchTransactionListA (ty : TransactionKind) (page : Int) (net : Outcome (List ListEntry))
  | fetchSingleTransactionA (transactionId : Int) (cur : Currency) (net : Outcome ListEntry)
  | createTransactionA (txn : Transaction) (kind : CreateKind) (net : Outcome PurchaseResponse)
  | addSelectedItemA (item : Product)
  | removeSelectedItemA (itemId : Int)
  | updateSelectedItemQuantityA (itemId : Int) (q : Int)
  | updateSelectedItemPriceA (itemId : Int) (p : Int)
  | resetFormA
  | paySupplierA (pd : PaymentData) (net : Outcome Json)
  | receiveFromCustomerA (pd : PaymentData) (net : Outcome Json)
  | refundTransactionA (rd : RefundTransaction) (net : Outcome Json)
  | feedingTransactionA (transactionId : Int) (net : Outcome Json)
  | searchItemsA (query : String) (warehouseId : Option Int)
      (transactionType : Option TransactionKind) (net : Outcome Json)

/-- Run one store operation on a state. -/
def step (s : StoreState) : Action → StoreState
  | .fetchBranchWarehousesA b net => (fetchBranchWarehouses s b net).state
  | .fetchCustomersA ty net => (fetchCustomers s ty net).state
  | .fetchTransactionListA ty page net => (fetchTransactionList s ty page net).state
  | .fetchSingleTransactionA tid cur net => (fetchSingleTransaction s tid cur net).state
  | .createTransactionA txn kind net => (createTransaction s txn kind net).state
  | .addSelectedItemA item => addSelectedItem s item
  | .removeSelectedItemA itemId => removeSelectedItem s itemId
  | .updateSelectedItemQuantityA itemId q => updateSelectedItemQuantity s itemId q
  | .updateSelectedItemPriceA itemId p => updateSelectedItemPrice s itemId p
  | .resetFormA => resetForm s
  | .paySupplierA pd net => (paySupplier s pd net).state
  | .receiveFromCustomerA pd net => (receiveFromCustomer s pd net).state
  | .refundTransactionA rd net => (refundTransaction s rd net).state
  | .feedingTransactionA tid net => (feedingTransaction s tid net).state
  | .searchItemsA q w ty net => (searchItems s q w ty net).state

/-- The uniqueness invariant on the selection: at most one entry per item id. -/
def uniqueSelectedIds (s : StoreState) : Prop :=
  (s.selectedItems.map (fun si => si.item_id)).Nodup

instance (s : StoreState) : Decidable (uniqueSelectedIds s) := by
  unfold uniqueSelectedIds
  infer_instance

/-- The state the store starts in (the `ref` initialisers). -/
def initialState : StoreState :=
  { loading := false
    list := []
    pagination := none
    transactions := []
    warehouses := []
    customers := []
    selectedItems := []
    transactionForm :=
      { customer_id := none
        warehouse_id := none
        payment_type := .cash
        note := ""
        details := [] } }

/-! ## Concrete sample data (used by examples, witnesses and counterexamples) -/

/-- A sample product with both prices present. -/
def productA : Product := { id := 1, solo_unit_price := some 5, bulk_unit_price := some 4 }

/-- A sample product with no bulk price. -/
def productB : Product := { id := 2, solo_unit_price := some 3, bulk_unit_price := none }

/-- A selection entry for `productA` with quantity 2 at unit price 5. -/
def entryA : SelectedItem :=
  { item_id := 1, item := productA, quantity := 2, unit_price := 5
    solo_unit_price := 5, bulk_unit_price := 4 }

/-- A selection entry for `productB` with quantity 1 at unit price 3. -/
def entryB : SelectedItem :=
  { item_id := 2, item := productB, quantity := 1, unit_price := 3
    solo_unit_price := 3, bulk_unit_price := 0 }

/-- A state whose selection is `[{qty 2, price 5}, {qty 1, price 3}]`. -/
def exampleState : StoreState :=
  { initialState with selectedItems := [entryA, entryB] }

/-- A sample customer. -/
def customer0 : Customer := { id := 7, type := "customer", payload := .null }

/-- A state that already holds a fetched customer and a fetched list row. -/
def stateWithCustomers : StoreState :=
  { initialState with
      customers := [customer0]
      list := [{ payload := .null }]
      pagination := some { payload := .num 1 } }

/-! ## Helper lemmas -/

theorem incFirstQuantity_map_item_id (l : List SelectedItem) (itemId : Int) :
    (incFirstQuantity l itemId).map (fun si => si.item_id) =
      l.map (fun si => si.item_id) := by
  induction l with
  | nil => rfl
  | cons a rest ih =>
    by_cases h : a.item_id == itemId <;> simp [incFirstQuantity, h, ih]

theorem setFirstQuantity_map_item_id (l : List SelectedItem) (itemId q : Int) :
    (setFirstQuantity l itemId q).map (fun si => si.item_id) =
      l.map (fun si => si.item_id) := by
  induction l with
  | nil => rfl
  | cons a rest ih =>
    by_cases h : a.item_id == itemId <;> simp [setFirstQuantity, h, ih]

theorem setFirstPrice_map_item_id (l : List SelectedItem) (itemId p : Int) :
    (setFirstPrice l itemId p).map (fun si => si.item_id) =
      l.map (fun si => si.item_id) := by
  induction l with
  | nil => rfl
  | cons a rest ih =>
    by_cases h : a.item_id == itemId <;> simp [setFirstPrice, h, ih]

theorem removeFirst_map_sublist (l : List SelectedItem) (itemId : Int) :
    ((removeFirst l itemId).map (fun si => si.item_id)).Sublist
      (l.map (fun si => si.item_id)) := by
  induction l with
  | nil => simp [removeFirst]
  | cons a rest ih =>
    by_cases h : a.item_id == itemId
    · simp only [removeFirst, h, if_pos]
      exact List.sublist_cons_self _ _
    · simp only [removeFirst, h, if_neg, Bool.false_eq_true, not_false_iff, List.map_cons]
      exact ih.cons₂ _

theorem foldl_amount (l : List SelectedItem) (a : Int) :
    l.foldl (fun total item => total + item.quantity * item.unit_price) a =
      a + (l.map (fun si => si.quantity * si.unit_price)).sum := by
  induction l generalizing a with
  | nil => simp
  | cons x xs ih => simp [List.foldl_cons, ih]; ring

theorem incFirstQuantity_length (l : List SelectedItem) (itemId : Int) :
    (incFirstQuantity l itemId).length = l.length := by
  induction l with
  | nil => rfl
  | cons a rest ih =>
    by_cases h : a.item_id == itemId <;> simp [incFirstQuantity, h, ih]

theorem incFirstQuantity_find? (l : List SelectedItem) (itemId : Int) (si : SelectedItem)
    (h : l.find? (fun x => x.item_id == itemId) = some si) :
    (incFirstQuantity l itemId).find? (fun x => x.item_id == itemId) =
      some { si with quantity := si.quantity + 1 } := by
  induction l with
  | nil => simp at h
  | cons a rest ih =>
    cases ha : a.item_id == itemId with
    | true =>
      simp [ha] at h
      subst h
      simp [incFirstQuantity, ha]
    | false =>
      simp [ha] at h
      simp [incFirstQuantity, ha, ih h]

theorem incFirstQuantity_no_match_append (l : List SelectedItem) (x : SelectedItem)
    (itemId : Int) (hl : ∀ si ∈ l, (si.item_id == itemId) = false)
    (hx : (x.item_id == itemId) = true) :
    incFirstQuantity (l ++ [x]) itemId = l ++ [{ x with quantity := x.quantity + 1 }] := by
  induction l with
  | nil => simp [incFirstQuantity, hx]
  | cons a rest ih =>
    have ha := hl a (by simp)
    simp only [List.cons_append, incFirstQuantity, ha, Bool.false_eq_true, if_neg,
      not_false_iff, List.cons.injEq, true_and]
    exact ih fun si hsi => hl si (by simp [hsi])

theorem setFirstQuantity_find? (l : List SelectedItem) (itemId q : Int) (si : SelectedItem)
    (h : l.find? (fun x => x.item_id == itemId) = some si) :
    (setFirstQuantity l itemId q).find? (fun x => x.item_id == itemId) =
      some { si with quantity := q } := by
  induction l with
  | nil => simp at h
  | cons a rest ih =>
    cases ha : a.item_id == itemId with
    | true =>
      simp [ha] at h
      subst h
      simp [setFirstQuantity, ha]
    | false =>
      simp [ha] at h
      simp [setFirstQuantity, ha, ih h]

theorem setFirstPrice_find? (l : List SelectedItem) (itemId p : Int) (si : SelectedItem)
    (h : l.find? (fun x => x.item_id == itemId) = some si) :
    (setFirstPrice l itemId p).find? (fun x => x.item_id == itemId) =
      some { si with unit_price := p } := by
  induction l with
  | nil => simp at h
  | cons a rest ih =>
    cases ha : a.item_id == itemId with
    | true =>
      simp [ha] at h
      subst h
      simp [setFirstPrice, ha]
    | false =>
      simp [ha] at h
      simp [setFirstPrice, ha, ih h]

theorem setFirstQuantity_filter_ne (l : List SelectedItem) (itemId q : Int) :
    (setFirstQuantity l itemId q).filter (fun x => !(x.item_id == itemId)) =
      l.filter (fun x => !(x.item_id == itemId)) := by
  induction l with
  | nil => rfl
  | cons a rest ih =>
    by_cases ha : (a.item_id == itemId) = true <;>
      simp [setFirstQuantity, ha, ih]

theorem setFirstPrice_filter_ne (l : List SelectedItem) (itemId p : Int) :
    (setFirstPrice l itemId p).filter (fun x => !(x.item_id == itemId)) =
      l.filter (fun x => !(x.item_id == itemId)) := by
  induction l with
  | nil => rfl
  | cons a rest ih =>
    by_cases ha : (a.item_id == itemId) = true <;>
      simp [setFirstPrice, ha, ih]

theorem fetchBranchWarehouses_selectedItems (s : StoreState) (b : Option Int)
    (net : Outcome BranchWithWarehouses) :
    (fetchBranchWarehouses s b net).state.selectedItems = s.selectedItems := by
  unfold fetchBranchWarehouses fetchBranchWarehousesBody fetchBranchWarehousesStart
  cases net <;> dsimp only <;> (repeat' split) <;> rfl

theorem fetchCustomers_selectedItems (s : StoreState) (ty : Option CustomerFilter)
    (net : Outcome (List Customer)) :
    (fetchCustomers s ty net).state.selectedItems = s.selectedItems := by
  unfold fetchCustomers
  cases net <;> dsimp only <;> (repeat' split) <;> rfl

theorem fetchTransactionList_selectedItems (s : StoreState) (k : TransactionKind)
    (page : Int) (net : Outcome (List ListEntry)) :
    (fetchTransactionList s k page net).state.selectedItems = s.selectedItems := by
  unfold fetchTransactionList
  cases net <;> dsimp only <;> (repeat' split) <;> rfl

theorem fetchSingleTransaction_selectedItems (s : StoreState) (tid : Int)
    (cur : Currency) (net : Outcome ListEntry) :
    (fetchSingleTransaction s tid cur net).state.selectedItems = s.selectedItems := by
  unfold fetchSingleTransaction
  cases net <;> dsimp only <;> (repeat' split) <;> rfl

theorem postPassthrough_selectedItems (s : StoreState) (net : Outcome Json) :
    (postPassthrough s net).state.selectedItems = s.selectedItems := by
  unfold postPassthrough
  cases net <;> dsimp only <;> (repeat' split) <;> rfl

theorem searchItems_selectedItems (s : StoreState) (q : String) (w : Option Int)
    (ty : Option TransactionKind) (net : Outcome Json) :
    (searchItems s q w ty net).state.selectedItems = s.selectedItems := by
  unfold searchItems
  cases net <;> dsimp only <;> (repeat' split) <;> rfl

theorem createTransaction_selectedItems (s : StoreState) (txn : Transaction)
    (kind : CreateKind) (net : Outcome PurchaseResponse) :
    (createTransaction s txn kind net).state.selectedItems = s.selectedItems ∨
    (createTransaction s txn kind net).state.selectedItems = [] := by
  cases net with
  | thrown e => exact .inl rfl
  | ok resp =>
    cases hst : resp.status == "success" with
    | true => right; simp [createTransaction, hst, resetForm]
    | false => left; simp [createTransaction, hst]

theorem addSelectedItem_selectedItems_pos (s : StoreState) (item : Product)
    (h : (s.selectedItems.any fun x => x.item_id == item.id) = true) :
    (addSelectedItem s item).selectedItems = incFirstQuantity s.selectedItems item.id := by
  simp [addSelectedItem, h]

theorem addSelectedItem_selectedItems_neg (s : StoreState) (item : Product)
    (h : (s.selectedItems.any fun x => x.item_id == item.id) = false) :
    (addSelectedItem s item).selectedItems = s.selectedItems ++ [mkSelectedItem item] := by
  simp [addSelectedItem, h]

theorem addSelectedItem_uniq (s : StoreState) (item : Product)
    (h : uniqueSelectedIds s) : uniqueSelectedIds (addSelectedItem s item) := by
  unfold uniqueSelectedIds at h ⊢
  cases hany : (s.selectedItems.any fun x => x.item_id == item.id) with
  | true =>
    rw [addSelectedItem_selectedItems_pos s item hany, incFirstQuantity_map_item_id]
    exact h
  | false =>
    have hno := List.any_eq_false.1 hany
    rw [addSelectedItem_selectedItems_neg s item hany, List.map_append]
    rw [List.nodup_append]
    refine ⟨h, List.nodup_singleton _, ?_⟩
    intro x hx hx2
    obtain ⟨si, hsi, hsix⟩ := List.mem_map.1 hx
    have hxid : x = (mkSelectedItem item).item_id := by simpa using hx2
    apply hno si hsi
    have : si.item_id = item.id := by
      rw [hsix, hxid]; rfl
    simp [this]

theorem removeSelectedItem_uniq (s : StoreState) (itemId : Int)
    (h : uniqueSelectedIds s) : uniqueSelectedIds (removeSelectedItem s itemId) := by
  unfold uniqueSelectedIds at h ⊢
  unfold removeSelectedItem
  split
  · exact (removeFirst_map_sublist s.selectedItems itemId).nodup h
  · exact h

theorem updateSelectedItemQuantity_uniq (s : StoreState) (itemId q : Int)
    (h : uniqueSelectedIds s) :
    uniqueSelectedIds (updateSelectedItemQuantity s itemId q) := by
  unfold uniqueSelectedIds at h ⊢
  unfold updateSelectedItemQuantity
  split
  · split
    · dsimp only
      rw [setFirstQuantity_map_item_id]
      exact h
    · exact h
  · exact h

theorem updateSelectedItemPrice_uniq (s : StoreState) (itemId p : Int)
    (h : uniqueSelectedIds s) :
    uniqueSelectedIds (updateSelectedItemPrice s itemId p) := by
  unfold uniqueSelectedIds at h ⊢
  unfold updateSelectedItemPrice
  split
  · split
    · dsimp only
      rw [setFirstPrice_map_item_id]
      exact h
    · exact h
  · exact h

/-! ## Claim theorems -/

/-- C1: when the `createTransaction` request throws, `transactions` is
unchanged, the transaction form and `selectedItems` are not reset, and the
error is re-thrown to the caller. -/
theorem createTransaction_thrown_spec (s : StoreState) (txn : Transaction)
    (kind : CreateKind) (e : String) :
    (createTransaction s txn kind (.thrown e)).state.transactions = s.transactions ∧
    (createTransaction s txn kind (.thrown e)).state.transactionForm = s.transactionForm ∧
    (createTransaction s txn kind (.thrown e)).state.selectedItems = s.selectedItems ∧
    (createTransaction s txn kind (.thrown e)).result = .raised e :=
  ⟨rfl, rfl, rfl, rfl⟩

/-- C3: `addSelectedItem` increments the existing entry's quantity by 1 when
an entry with the item's id is present (so adding the same item twice yields
one entry of quantity 2 and no duplicate), and otherwise appends a new entry
with quantity 1 and unit price seeded from the item's solo/bulk prices. -/
theorem addSelectedItem_spec (s : StoreState) (item : Product) :
    (∀ si, s.selectedItems.find? (fun x => x.item_id == item.id) = some si →
      (addSelectedItem s item).selectedItems.length = s.selectedItems.length ∧
      (addSelectedItem s item).selectedItems.find? (fun x => x.item_id == item.id) =
        some { si with quantity := si.quantity + 1 }) ∧
    (s.selectedItems.find? (fun x => x.item_id == item.id) = none →
      (addSelectedItem s item).selectedItems =
        s.selectedItems ++
          [{ item_id := item.id, item := item, quantity := 1
             unit_price := jsOr0 item.solo_unit_price
             solo_unit_price := jsOr0 item.solo_unit_price
             bulk_unit_price := jsOr0 item.bulk_unit_price }]) ∧
    (s.selectedItems.find? (fun x => x.item_id == item.id) = none →
      ((addSelectedItem (addSelectedItem s item) item).selectedItems.filter
          (fun x => x.item_id == item.id)).map (fun x => x.quantity) = [2] ∧
      (addSelectedItem (addSelectedItem s item) item).selectedItems.length =
        s.selectedItems.length + 1) := by
  refine ⟨?_, ?_, ?_⟩
  · intro si h
    have hmem := List.mem_of_find?_eq_some h
    have hp : (si.item_id == item.id) = true := by
      have h2 := (List.find?_eq_some.1 h).1
      simpa using h2
    have hany : (s.selectedItems.any fun x => x.item_id == item.id) = true :=
      List.any_eq_true.2 ⟨si, hmem, hp⟩
    rw [addSelectedItem_selectedItems_pos s item hany]
    exact ⟨incFirstQuantity_length _ _, incFirstQuantity_find? _ _ _ h⟩
  · intro h
    have hno : ∀ x ∈ s.selectedItems, (x.item_id == item.id) = false := by
      intro x hx
      have hx' := List.find?_eq_none.1 h x hx
      simpa using hx'
    have hany : (s.selectedItems.any fun x => x.item_id == item.id) = false := by
      simp only [List.any_eq_false]
      intro x hx
      simp [hno x hx]
    rw [addSelectedItem_selectedItems_neg s item hany]
    simp [mkSelectedItem]
  · intro h
    have hno : ∀ x ∈ s.selectedItems, (x.item_id == item.id) = false := by
      intro x hx
      have hx' := List.find?_eq_none.1 h x hx
      simpa using hx'
    have hany : (s.selectedItems.any fun x => x.item_id == item.id) = false := by
      simp only [List.any_eq_false]
      intro x hx
      simp [hno x hx]
    have hfst : (addSelectedItem s item).selectedItems =
        s.selectedItems ++ [mkSelectedItem item] :=
      addSelectedItem_selectedItems_neg s item hany
    have hmk : ((mkSelectedItem item).item_id == item.id) = true := by
      simp [mkSelectedItem]
    have hany2 : ((addSelectedItem s item).selectedItems.any
        fun x => x.item_id == item.id) = true := by
      rw [hfst]
      exact List.any_eq_true.2 ⟨mkSelectedItem item, by simp, hmk⟩
    have hsnd : (addSelectedItem (addSelectedItem s item) item).selectedItems =
        s.selectedItems ++ [{ mkSelectedItem item with
          quantity := (mkSelectedItem item).quantity + 1 }] := by
      rw [addSelectedItem_selectedItems_pos (addSelectedItem s item) item hany2, hfst]
      exact incFirstQuantity_no_match_append _ _ _ hno hmk
    rw [hsnd]
    constructor
    · rw [List.filter_append]
      have hfl : s.selectedItems.filter (fun x => x.item_id == item.id) = [] := by
        rw [List.filter_eq_nil_iff]
        intro x hx
        simp [hno x hx]
      rw [hfl]
      simp [mkSelectedItem]
    · simp

/-- Witness for C3: bumping an already-selected product, appending a fresh
one, and the add-twice shape, at concrete states. -/
theorem addSelectedItem_spec_witness :
    (addSelectedItem exampleState productA).selectedItems.find?
        (fun x => x.item_id == productA.id) = some { entryA with quantity := 3 } ∧
    (addSelectedItem initialState productB).selectedItems =
      [{ item_id := 2, item := productB, quantity := 1, unit_price := 3
         solo_unit_price := 3, bulk_unit_price := 0 }] ∧
    ((addSelectedItem (addSelectedItem initialState productB) productB).selectedItems.filter
        (fun x => x.item_id == productB.id)).map (fun x => x.quantity) = [2] := by
  refine ⟨?_, ?_, ?_⟩
  · have := ((addSelectedItem_spec exampleState productA).1 entryA (by decide)).2
    simpa [entryA] using this
  · have := (addSelectedItem_spec initialState productB).2.1 (by decide)
    simpa [jsOr0, productB] using this
  · exact ((addSelectedItem_spec initialState productB).2.2 (by decide)).1

/-- C5: `updateSelectedItemQuantity` assigns only when the entry exists and
the value is positive, `updateSelectedItemPrice` only when the entry exists
and the value is non-negative; in every other case the selection is left
unchanged, and in the assigning case every other entry is untouched. -/
theorem updateSelectedItem_spec (s : StoreState) (itemId v : Int) :
    (s.selectedItems.find? (fun x => x.item_id == itemId) = none →
      updateSelectedItemQuantity s itemId v = s ∧
      updateSelectedItemPrice s itemId v = s) ∧
    (v ≤ 0 → updateSelectedItemQuantity s itemId v = s) ∧
    (v < 0 → updateSelectedItemPrice s itemId v = s) ∧
    (∀ si, s.selectedItems.find? (fun x => x.item_id == itemId) = some si → 0 < v →
      (updateSelectedItemQuantity s itemId v).selectedItems.find?
          (fun x => x.item_id == itemId) = some { si with quantity := v } ∧
      (updateSelectedItemQuantity s itemId v).selectedItems.filter
          (fun x => !(x.item_id == itemId)) =
        s.selectedItems.filter (fun x => !(x.item_id == itemId))) ∧
    (∀ si, s.selectedItems.find? (fun x => x.item_id == itemId) = some si → 0 ≤ v →
      (updateSelectedItemPrice s itemId v).selectedItems.find?
          (fun x => x.item_id == itemId) = some { si with unit_price := v } ∧
      (updateSelectedItemPrice s itemId v).selectedItems.filter
          (fun x => !(x.item_id == itemId)) =
        s.selectedItems.filter (fun x => !(x.item_id == itemId))) := by
  refine ⟨?_, ?_, ?_, ?_, ?_⟩
  · intro h
    constructor <;> simp [updateSelectedItemQuantity, updateSelectedItemPrice, h]
  · intro hv
    cases hf : s.selectedItems.find? (fun x => x.item_id == itemId) with
    | none => simp [updateSelectedItemQuantity, hf]
    | some si => simp [updateSelectedItemQuantity, hf, show ¬(v > 0) by omega]
  · intro hv
    cases hf : s.selectedItems.find? (fun x => x.item_id == itemId) with
    | none => simp [updateSelectedItemPrice, hf]
    | some si => simp [updateSelectedItemPrice, hf, show ¬(v ≥ 0) by omega]
  · intro si h hv
    have hgu : (updateSelectedItemQuantity s itemId v).selectedItems =
        setFirstQuantity s.selectedItems itemId v := by
      simp [updateSelectedItemQuantity, h, show v > 0 by omega]
    rw [hgu]
    exact ⟨setFirstQuantity_find? _ _ _ _ h, setFirstQuantity_filter_ne _ _ _⟩
  · intro si h hv
    have hgu : (updateSelectedItemPrice s itemId v).selectedItems =
        setFirstPrice s.selectedItems itemId v := by
      simp [updateSelectedItemPrice, h, show v ≥ 0 by omega]
    rw [hgu]
    exact ⟨setFirstPrice_find? _ _ _ _ h, setFirstPrice_filter_ne _ _ _⟩

/-- Witness for C5: rejected zero quantity, rejected negative price, an
accepted quantity update, an accepted price update, and the absent-id no-op,
at concrete states. -/
theorem updateSelectedItem_spec_witness :
    updateSelectedItemQuantity exampleState 1 0 = exampleState ∧
    updateSelectedItemPrice exampleState 1 (-1) = exampleState ∧
    (updateSelectedItemQuantity exampleState 1 7).selectedItems.find?
        (fun x => x.item_id == (1 : Int)) = some { entryA with quantity := 7 } ∧
    (updateSelectedItemPrice exampleState 1 9).selectedItems.find?
        (fun x => x.item_id == (1 : Int)) = some { entryA with unit_price := 9 } ∧
    updateSelectedItemQuantity initialState 1 5 = initialState := by
  refine ⟨(updateSelectedItem_spec exampleState 1 0).2.1 (by omega),
    (updateSelectedItem_spec exampleState 1 (-1)).2.2.1 (by omega), ?_, ?_,
    ((updateSelectedItem_spec initialState 1 5).1 (by decide)).1⟩
  · exact ((updateSelectedItem_spec exampleState 1 7).2.2.2.1 entryA
      (by decide) (by omega)).1
  · exact ((updateSelectedItem_spec exampleState 1 9).2.2.2.2 entryA
      (by decide) (by omega)).1

/-- C4: every operation of the store preserves the invariant that
`selectedItems` holds at most one entry per item id. -/
theorem step_preserves_uniqueSelectedIds (s : StoreState) (a : Action)
    (h : uniqueSelectedIds s) : uniqueSelectedIds (step s a) := by
  cases a with
  | fetchBranchWarehousesA b net =>
    unfold uniqueSelectedIds at h ⊢
    rw [step, fetchBranchWarehouses_selectedItems]
    exact h
  | fetchCustomersA ty net =>
    unfold uniqueSelectedIds at h ⊢
    rw [step, fetchCustomers_selectedItems]
    exact h
  | fetchTransactionListA ty page net =>
    unfold uniqueSelectedIds at h ⊢
    rw [step, fetchTransactionList_selectedItems]
    exact h
  | fetchSingleTransactionA tid cur net =>
    unfold uniqueSelectedIds at h ⊢
    rw [step, fetchSingleTransaction_selectedItems]
    exact h
  | createTransactionA txn kind net =>
    unfold uniqueSelectedIds at h ⊢
    rw [step]
    rcases createTransaction_selectedItems s txn kind net with hc | hc <;> rw [hc]
    · exact h
    · simp
  | addSelectedItemA item => exact addSelectedItem_uniq s item h
  | removeSelectedItemA itemId => exact removeSelectedItem_uniq s itemId h
  | updateSelectedItemQuantityA itemId q =>
    exact updateSelectedItemQuantity_uniq s itemId q h
  | updateSelectedItemPriceA itemId p =>
    exact updateSelectedItemPrice_uniq s itemId p h
  | resetFormA =>
    unfold uniqueSelectedIds
    simp [step, resetForm]
  | paySupplierA pd net =>
    unfold uniqueSelectedIds at h ⊢
    rw [step, paySupplier, postPassthrough_selectedItems]
    exact h
  | receiveFromCustomerA pd net =>
    unfold uniqueSelectedIds at h ⊢
    rw [step, receiveFromCustomer, postPassthrough_selectedItems]
    exact h
  | refundTransactionA rd net =>
    unfold uniqueSelectedIds at h ⊢
    rw [step, refundTransaction, postPassthrough_selectedItems]
    exact h
  | feedingTransactionA tid net =>
    unfold uniqueSelectedIds at h ⊢
    rw [step, feedingTransaction, postPassthrough_selectedItems]
    exact h
  | searchItemsA q w ty net =>
    unfold uniqueSelectedIds at h ⊢
    rw [step, searchItems_selectedItems]
    exact h

/-- Witness for C4 at the initial state and a concrete action. -/
theorem step_preserves_uniqueSelectedIds_witness :
    uniqueSelectedIds (step initialState (.addSelectedItemA productA)) :=
  step_preserves_uniqueSelectedIds initialState (.addSelectedItemA productA) (by decide)

/-- C6: `resetForm` restores the default form (null customer and warehouse,
cash payment, empty note, empty details) and empties the selection in the
same invocation. -/
theorem resetForm_spec (s : StoreState) :
    (resetForm s).transactionForm =
      { customer_id := none, warehouse_id := none, payment_type := .cash
        note := "", details := [] } ∧
    (resetForm s).transactionForm.details = [] ∧
    (resetForm s).selectedItems = [] :=
  ⟨rfl, rfl, rfl⟩

/-- C7: `totalAmount` is the sum over the selection of quantity × unit price;
it is 0 for an empty selection, and 13 for `[{qty 2, price 5}, {qty 1,
price 3}]`. -/
theorem totalAmount_spec (s : StoreState) :
    totalAmount s = (s.selectedItems.map (fun si => si.quantity * si.unit_price)).sum ∧
    totalAmount { s with selectedItems := [] } = 0 ∧
    totalAmount exampleState = 13 := by
  refine ⟨?_, rfl, by decide⟩
  simpa using foldl_amount s.selectedItems 0

/-- C8: `fetchBranchWarehouses` without a branch id empties `warehouses`,
issues no network request, and still sets `loading` true at the start and
false at the end. -/
theorem fetchBranchWarehouses_noBranch_spec (s : StoreState)
    (net : Outcome BranchWithWarehouses) :
    (fetchBranchWarehousesStart s).loading = true ∧
    (fetchBranchWarehouses s none net).state.warehouses = [] ∧
    (fetchBranchWarehouses s none net).requestIssued = false ∧
    (fetchBranchWarehouses s none net).state.loading = false :=
  ⟨rfl, rfl, rfl, rfl⟩

/-- C2 counterexample: a thrown `fetchCustomers` request does not set
`customers` to the empty result — the prior, non-empty customer list
survives, so the claimed reset-to-empty is false at this input. -/
theorem fetchCustomers_thrown_not_emptied :
    ¬ ((fetchCustomers stateWithCustomers none (.thrown "boom")).state.customers = []) := by
  simp [fetchCustomers, stateWithCustomers, initialState]

/-- C2 (amended): every thrown request in the three swallow-and-log read
operations is swallowed (the call resolves to `undefined`, never re-raises);
`fetchBranchWarehouses` sets `warehouses` to the empty list, while
`fetchCustomers` and `fetchTransactionList` leave `customers`, `list` and
`pagination` unchanged. -/
theorem swallowRead_thrown_spec (s : StoreState) (b : Option Int)
    (ty : Option CustomerFilter) (k : TransactionKind) (page : Int) (e : String) :
    ((fetchBranchWarehouses s b (.thrown e)).result = .value none ∧
      (fetchBranchWarehouses s b (.thrown e)).state.warehouses = []) ∧
    ((fetchCustomers s ty (.thrown e)).result = .value none ∧
      (fetchCustomers s ty (.thrown e)).state.customers = s.customers) ∧
    ((fetchTransactionList s k page (.thrown e)).result = .value none ∧
      (fetchTransactionList s k page (.thrown e)).state.list = s.list ∧
      (fetchTransactionList s k page (.thrown e)).state.pagination = s.pagination) := by
  refine ⟨⟨?_, ?_⟩, ⟨rfl, rfl⟩, rfl, rfl, rfl⟩ <;>
    · unfold fetchBranchWarehouses fetchBranchWarehousesBody fetchBranchWarehousesStart
      split <;> rfl

/-- C9: a `searchItems` call for a sell transaction with a (truthy) warehouse
id, whose successful response carries `data.items` as a keyed map, returns
the map's values as a list; when `data.items` is already an array it is
returned as-is. -/
theorem searchItems_sell_mapItems_spec (s : StoreState) (q : String) (w : Int)
    (d : Json) (fields : List (String × Json)) (l : List Json)
    (msg : Option String) (pg : Option Pagination) (hw : (w == 0) = false) :
    (d.getField "items" = some (.obj fields) →
      (searchItems s q (some w) (some .sell)
          (.ok { status := "success", data := d, message := msg
                 pagination := pg })).result =
        .value (some (.arr (objValues fields)))) ∧
    (d.getField "items" = some (.arr l) →
      (searchItems s q (some w) (some .sell)
          (.ok { status := "success", data := d, message := msg
                 pagination := pg })).result =
        .value (some (.arr l))) := by
  constructor <;> intro h <;>
    simp [searchItems, isFalsyId, hw, h, jsTruthy]

/-- Witness for C9: a keyed-map `items` payload and an array `items` payload,
both at concrete inputs. -/
theorem searchItems_sell_mapItems_spec_witness :
    (searchItems initialState "abc" (some 1) (some .sell)
        (.ok { status := "success"
               data := .obj [("items", .obj [("10", .num 10), ("20", .num 20)])]
               message := none, pagination := none })).result =
      .value (some (.arr (objValues [("10", .num 10), ("20", .num 20)]))) ∧
    (searchItems initialState "abc" (some 1) (some .sell)
        (.ok { status := "success"
               data := .obj [("items", .arr [.num 7])]
               message := none, pagination := none })).result =
      .value (some (.arr [.num 7])) :=
  ⟨(searchItems_sell_mapItems_spec initialState "abc" 1
      (.obj [("items", .obj [("10", .num 10), ("20", .num 20)])])
      [("10", .num 10), ("20", .num 20)] [] none none (by decide)).1 rfl,
   (searchItems_sell_mapItems_spec initialState "abc" 1
      (.obj [("items", .arr [.num 7])])
      [] [.num 7] none none (by decide)).2 rfl⟩

/-- C10: when the `createTransaction` request resolves but the envelope's
status is not "success", the call returns `undefined` without throwing,
prepends nothing to `transactions`, and resets neither the form nor the
selection. -/
theorem createTransaction_nonsuccess_spec (s : StoreState) (txn : Transaction)
    (kind : CreateKind) (resp : ApiResponse PurchaseResponse)
    (h : resp.status ≠ "success") :
    (createTransaction s txn kind (.ok resp)).result = .value none ∧
    (createTransaction s txn kind (.ok resp)).state.transactions = s.transactions ∧
    (createTransaction s txn kind (.ok resp)).state.transactionForm = s.transactionForm ∧
    (createTransaction s txn kind (.ok resp)).state.selectedItems = s.selectedItems := by
  have hb : (resp.status == "success") = false := by
    simpa [beq_iff_eq] using h
  refine ⟨?_, ?_, ?_, ?_⟩ <;> simp [createTransaction, hb]

/-- Witness for C10 at a concrete non-success envelope. -/
theorem createTransaction_nonsuccess_spec_witness :
    (createTransaction initialState { payload := .null } .purchase
        (.ok { status := "error", data := { payload := .null }
               message := none, pagination := none })).result = .value none ∧
    (createTransaction initialState { payload := .null } .purchase
        (.ok { status := "error", data := { payload := .null }
               message := none, pagination := none })).state.transactions =
      initialState.transactions :=
  ⟨(createTransaction_nonsuccess_spec initialState { payload := .null } .purchase
      { status := "error", data := { payload := .null }, message := none, pagination := none }
      (by simp)).1,
   (createTransaction_nonsuccess_spec initialState { payload := .null } .purchase
      { status := "error", data := { payload := .null }, message := none, pagination := none }
      (by simp)).2.1⟩

end ItemTransactionStore
